import Mathlib

/-!
Shallow embedding of the identifier-resolution logic of the iKanban
repository: the module-level alias tables and the pure resolution
functions `resolve_team_id`, `resolve_project_id`, `parse_priority` of
`mcp/cli.py`, `mcp/server.py` and `mcp/ikanban.py`, together with
`mcp/ikanban.py`'s `resolve_task_id` (its single network call is passed
in as an explicit `fetch` oracle, and the returned trace records which
team ids were fetched) and the request-building part of `cmd_create`.

Python strings are modelled as Lean `String`s restricted to ASCII:
`str.lower`, `str.upper`, `str.strip`, `int(..)` and the regex
`^([a-zA-Z]+)-?(\d+)$` are embedded for the ASCII fragment, which covers
every key of the alias tables and every literal of the code.
Python `None` is `Option.none`; falsiness of a string is the test
against `""`.
-/

deriving instance DecidableEq for Except

namespace IKanban

/-- ASCII model of Python `str.lower` on one character. -/
def lowerCh (c : Char) : Char :=
  if 65 ≤ c.toNat ∧ c.toNat ≤ 90 then Char.ofNat (c.toNat + 32) else c

/-- ASCII model of Python `str.upper` on one character. -/
def upperCh (c : Char) : Char :=
  if 97 ≤ c.toNat ∧ c.toNat ≤ 122 then Char.ofNat (c.toNat - 32) else c

/-- ASCII model of Python `str.lower`. -/
def pyLower (s : String) : String := String.mk (s.data.map lowerCh)

/-- ASCII model of Python `str.upper`. -/
def pyUpper (s : String) : String := String.mk (s.data.map upperCh)

/-- ASCII whitespace, as stripped by Python `str.strip`. -/
def isPySpace (c : Char) : Bool :=
  c.toNat = 32 ∨ (9 ≤ c.toNat ∧ c.toNat ≤ 13)

/-- Python `str.strip` on the character list: drop whitespace from both ends. -/
def pyStripList (l : List Char) : List Char :=
  ((l.dropWhile isPySpace).reverse.dropWhile isPySpace).reverse

/-- Python `str.strip`. -/
def pyStrip (s : String) : String := String.mk (pyStripList s.data)

/-- Python `len(s)` (number of characters). -/
def pyLen (s : String) : Nat := s.data.length

/-- Python `s.count('-')`. -/
def countDash (s : String) : Nat := s.data.count '-'

/-- The regex class `[a-zA-Z]`. -/
def isAsciiLetter (c : Char) : Bool :=
  (65 ≤ c.toNat ∧ c.toNat ≤ 90) ∨ (97 ≤ c.toNat ∧ c.toNat ≤ 122)

/-- The regex class `\d` (ASCII fragment). -/
def isAsciiDigit (c : Char) : Bool :=
  48 ≤ c.toNat ∧ c.toNat ≤ 57

/-- Decimal value of a digit string (used for `int(match.group(2))`). -/
def digitsToNat (l : List Char) : Nat :=
  l.foldl (fun a c => a * 10 + (c.toNat - 48)) 0

/-- Digit groups accepted by Python `int`: digits with single underscores
between digits. -/
def digitsUnd : List Char → Bool
  | [] => false
  | [c] => isAsciiDigit c
  | c :: '_' :: rest => isAsciiDigit c && digitsUnd rest
  | c :: rest => isAsciiDigit c && digitsUnd rest

/-- Python `int(s)` after stripping: optional sign, then a digit group. -/
def pyIntCore (l : List Char) : Option Int :=
  match l with
  | '+' :: rest =>
      if digitsUnd rest then some (digitsToNat (rest.filter isAsciiDigit)) else none
  | '-' :: rest =>
      if digitsUnd rest then some (-(digitsToNat (rest.filter isAsciiDigit) : Int)) else none
  | _ =>
      if digitsUnd l then some (digitsToNat (l.filter isAsciiDigit)) else none

/-- Python `int(s)` on a string (`ValueError` is `none`). -/
def pyIntOfString (s : String) : Option Int := pyIntCore (pyStripList s.data)

/-- Python `s.startswith(p)` (ASCII model). -/
def py_startswith (s p : String) : Bool :=
  decide (s.data.take p.data.length = p.data)

/-- Dictionary lookup `d.get(k)` on an association list. -/
def dget {α : Type} : List (String × α) → String → Option α
  | [], _ => none
  | (a, v) :: rest, k => if k = a then some v else dget rest k

/-- Does `pat` occur as a contiguous substring of `s`? (Python `pat in s`.) -/
def containsSubstr : List Char → List Char → Bool
  | [], pat => decide (pat = [])
  | c :: rest, pat =>
      decide ((c :: rest).take pat.length = pat) || containsSubstr rest pat

/-- A Python value that is either an `int` or a `str` (the domain of
`parse_priority` below `None`). -/
inductive PyVal where
  | vint (n : Int)
  | vstr (s : String)
deriving DecidableEq

/-! ### `mcp/cli.py` -/

namespace Cli

def KNOWN_TEAMS : List (String × String) :=
  [("ikanban", "a263e43f-43d3-4af7-a947-5f70e6670921"),
   ("schild", "a2f22deb-901e-436b-9755-644cb26753b7"),
   ("ika", "a263e43f-43d3-4af7-a947-5f70e6670921"),
   ("sch", "a2f22deb-901e-436b-9755-644cb26753b7")]

def TEAM_DEFAULT_PROJECTS : List (String × String) :=
  [("a263e43f-43d3-4af7-a947-5f70e6670921", "ff89ece5-eb49-4d8b-a349-4fc227773cbc"),
   ("a2f22deb-901e-436b-9755-644cb26753b7", "ec364e49-b620-48e1-9dd1-8744eaedb5e2")]

def IKA_PROJECTS : List (String × String) :=
  [("frontend", "ff89ece5-eb49-4d8b-a349-4fc227773cbc"),
   ("backend", "use-vk_list_projects"),
   ("integration", "use-vk_list_projects")]

def SCH_PROJECTS : List (String × String) :=
  [("backend", "ec364e49-b620-48e1-9dd1-8744eaedb5e2"),
   ("frontend", "a0838686-0c56-4492-bf6d-65847451496a"),
   ("data-layer", "20f980e2-9cd8-427d-a11f-99cbff31acad"),
   ("temporal", "0ea3cbc6-11c3-4d68-bb99-7493a40de833"),
   ("elevenlabs", "e09697e8-c605-46a0-9dbc-877918fdca08"),
   ("infra", "b40b5eca-1856-4b69-928f-0ec3ecd2737b")]

def PRIORITIES : List (String × Int) :=
  [("none", 0), ("urgent", 1), ("high", 2), ("medium", 3), ("low", 4)]

def resolve_team_id (team_ref : Option String) : Option String :=
  match team_ref with
  | none => none
  | some s =>
      if s = "" then none
      else some ((dget KNOWN_TEAMS (pyLower s)).getD s)

def resolve_project_id (project_ref : Option String) (team_id : Option String) : Option String :=
  match project_ref with
  | none =>
      match team_id with
      | some t => if t = "" then none else dget TEAM_DEFAULT_PROJECTS t
      | none => none
  | some s =>
      if s = "" then
        match team_id with
        | some t => if t = "" then none else dget TEAM_DEFAULT_PROJECTS t
        | none => none
      else if team_id = some "a263e43f-43d3-4af7-a947-5f70e6670921" then
        match dget IKA_PROJECTS (pyLower s) with
        | some proj_id =>
            if proj_id ≠ "use-vk_list_projects" then some proj_id else some s
        | none => some s
      else if team_id = some "a2f22deb-901e-436b-9755-644cb26753b7" then
        match dget SCH_PROJECTS (pyLower s) with
        | some proj_id => some proj_id
        | none => some s
      else some s

def parse_priority (priority_str : Option PyVal) : Option Int :=
  match priority_str with
  | none => none
  | some (.vint n) => some n
  | some (.vstr s) =>
      match dget PRIORITIES (pyLower s) with
      | some v => some v
      | none => pyIntOfString s

end Cli

/-! ### `mcp/server.py` -/

namespace Server

def KNOWN_TEAMS : List (String × String) :=
  [("ikanban", "a263e43f-43d3-4af7-a947-5f70e6670921"),
   ("schild", "a2f22deb-901e-436b-9755-644cb26753b7"),
   ("ika", "a263e43f-43d3-4af7-a947-5f70e6670921"),
   ("sch", "a2f22deb-901e-436b-9755-644cb26753b7")]

def TEAM_DEFAULT_PROJECTS : List (String × String) :=
  [("a263e43f-43d3-4af7-a947-5f70e6670921", "ff89ece5-eb49-4d8b-a349-4fc227773cbc"),
   ("a2f22deb-901e-436b-9755-644cb26753b7", "ec364e49-b620-48e1-9dd1-8744eaedb5e2")]

def IKA_PROJECTS : List (String × String) :=
  [("frontend", "ff89ece5-eb49-4d8b-a349-4fc227773cbc"),
   ("backend", "use-dynamic-lookup"),
   ("integration", "use-dynamic-lookup")]

def SCH_PROJECTS : List (String × String) :=
  [("backend", "ec364e49-b620-48e1-9dd1-8744eaedb5e2"),
   ("frontend", "a0838686-0c56-4492-bf6d-65847451496a"),
   ("data-layer", "20f980e2-9cd8-427d-a11f-99cbff31acad"),
   ("temporal", "0ea3cbc6-11c3-4d68-bb99-7493a40de833"),
   ("elevenlabs", "e09697e8-c605-46a0-9dbc-877918fdca08"),
   ("infra", "b40b5eca-1856-4b69-928f-0ec3ecd2737b")]

def PRIORITIES : List (String × Int) :=
  [("none", 0), ("urgent", 1), ("high", 2), ("medium", 3), ("low", 4)]

def resolve_team_id (team_ref : Option String) : Option String :=
  match team_ref with
  | none => none
  | some s =>
      if s = "" then none
      else
        match dget KNOWN_TEAMS s with
        | some v => some v
        | none =>
            match dget KNOWN_TEAMS (pyLower s) with
            | some v => some v
            | none => some s

def resolve_project_id (project_ref : Option String) (team_id : Option String) : Option String :=
  match project_ref with
  | none =>
      match team_id with
      | some t => if t = "" then none else dget TEAM_DEFAULT_PROJECTS t
      | none => none
  | some s =>
      if s = "" then
        match team_id with
        | some t => if t = "" then none else dget TEAM_DEFAULT_PROJECTS t
        | none => none
      else if team_id = some "a263e43f-43d3-4af7-a947-5f70e6670921" then
        match dget IKA_PROJECTS (pyLower s) with
        | some proj_id =>
            if ¬ py_startswith proj_id "use-" then some proj_id else some s
        | none => some s
      else if team_id = some "a2f22deb-901e-436b-9755-644cb26753b7" then
        match dget SCH_PROJECTS (pyLower s) with
        | some proj_id => some proj_id
        | none => some s
      else some s

def parse_priority (priority_val : Option PyVal) : Option Int :=
  match priority_val with
  | none => none
  | some (.vint n) => some n
  | some (.vstr s) =>
      match dget PRIORITIES (pyLower s) with
      | some v => some v
      | none => pyIntOfString s

end Server

/-! ### `mcp/ikanban.py` -/

namespace Mcp

def KNOWN_TEAMS : List (String × String) :=
  [("ikanban", "a263e43f-43d3-4af7-a947-5f70e6670921"),
   ("schild", "a2f22deb-901e-436b-9755-644cb26753b7"),
   ("ika", "a263e43f-43d3-4af7-a947-5f70e6670921"),
   ("sch", "a2f22deb-901e-436b-9755-644cb26753b7")]

def TEAM_DEFAULT_PROJECTS : List (String × String) :=
  [("a263e43f-43d3-4af7-a947-5f70e6670921", "ff89ece5-eb49-4d8b-a349-4fc227773cbc"),
   ("a2f22deb-901e-436b-9755-644cb26753b7", "ec364e49-b620-48e1-9dd1-8744eaedb5e2")]

def IKA_PROJECTS : List (String × String) :=
  [("frontend", "ff89ece5-eb49-4d8b-a349-4fc227773cbc"),
   ("backend", "use-dynamic-lookup"),
   ("integration", "use-dynamic-lookup")]

def SCH_PROJECTS : List (String × String) :=
  [("backend", "ec364e49-b620-48e1-9dd1-8744eaedb5e2"),
   ("frontend", "a0838686-0c56-4492-bf6d-65847451496a"),
   ("data-layer", "20f980e2-9cd8-427d-a11f-99cbff31acad"),
   ("temporal", "0ea3cbc6-11c3-4d68-bb99-7493a40de833"),
   ("elevenlabs", "e09697e8-c605-46a0-9dbc-877918fdca08"),
   ("infra", "b40b5eca-1856-4b69-928f-0ec3ecd2737b")]

def PRIORITIES : List (String × Int) :=
  [("none", 0), ("urgent", 1), ("high", 2), ("medium", 3), ("low", 4)]

def resolve_team_id (team_ref : Option String) : Option String :=
  match team_ref with
  | none => none
  | some s =>
      if s = "" then none
      else some ((dget KNOWN_TEAMS (pyLower s)).getD s)

def resolve_project_id (project_ref : Option String) (team_id : Option String) : Option String :=
  match project_ref with
  | none =>
      match team_id with
      | some t => if t = "" then none else dget TEAM_DEFAULT_PROJECTS t
      | none => none
  | some s =>
      if s = "" then
        match team_id with
        | some t => if t = "" then none else dget TEAM_DEFAULT_PROJECTS t
        | none => none
      else if team_id = some "a263e43f-43d3-4af7-a947-5f70e6670921" then
        match dget IKA_PROJECTS (pyLower s) with
        | some proj_id =>
            if ¬ py_startswith proj_id "use-" then some proj_id else some s
        | none => some s
      else if team_id = some "a2f22deb-901e-436b-9755-644cb26753b7" then
        match dget SCH_PROJECTS (pyLower s) with
        | some proj_id => some proj_id
        | none => some s
      else some s

def parse_priority (priority_str : Option PyVal) : Option Int :=
  match priority_str with
  | none => none
  | some (.vint n) => some n
  | some (.vstr s) =>
      match dget PRIORITIES (pyLower s) with
      | some v => some v
      | none => pyIntOfString s

/-- An element of the JSON array returned by `GET /api/teams/{id}/issues`:
`issue["id"]` and `issue.get("issue_number")` are the only fields read. -/
structure Issue where
  id : String
  issue_number : Option Int
deriving DecidableEq

/-- The outcomes of `resolve_task_id` that end in `sys.exit(1)`, carrying
the message printed to stderr. -/
inductive TaskErr where
  | emptyRef
  | unknownTeam (msg : String)
  | fetchFailed (msg : String)
  | notFound (msg : String)
deriving DecidableEq

/-- The regex `re.match(r'^([a-zA-Z]+)-?(\d+)$', s)`: a non-empty letter
group, an optional hyphen, and a non-empty digit group filling the whole
string. Returns the letter group and the digit group. The character
classes are disjoint, so greedy maximal-munch matching is equivalent to
the regex. -/
def issueKeyMatch (l : List Char) : Option (List Char × List Char) :=
  let letters := l.takeWhile isAsciiLetter
  let rest := l.dropWhile isAsciiLetter
  if letters.isEmpty then none
  else
    let digits := if rest.head? = some '-' then rest.tail else rest
    if digits ≠ [] ∧ digits.all isAsciiDigit then some (letters, digits) else none

/-- `resolve_task_id` of `mcp/ikanban.py`. The one network call
(`api_request(f"/teams/{team_id}/issues", exit_on_error=False)` followed by
`result.get("data", [])`) is abstracted as `fetch`; `Except.error` models a
response carrying an `"error"` key. The second component of the result is
the trace of team ids fetched, so that the number of network calls is
observable. -/
def resolve_task_id (fetch : String → Except String (List Issue)) (task_ref : String) :
    Except TaskErr String × List String :=
  if task_ref = "" then (.error .emptyRef, [])
  else if pyLen task_ref = 36 ∧ countDash task_ref = 4 then (.ok task_ref, [])
  else
    match issueKeyMatch (pyStripList task_ref.data) with
    | none => (.ok task_ref, [])
    | some (letters, digits) =>
        let team_key := letters.map lowerCh
        let issue_number : Int := (digitsToNat digits : Nat)
        match dget KNOWN_TEAMS (String.mk team_key) with
        | none =>
            (.error (.unknownTeam
              ("Unknown team: " ++ String.mk (team_key.map upperCh) ++ ". Use IKA or SCH.")), [])
        | some team_id =>
            match fetch team_id with
            | .error e =>
                (.error (.fetchFailed ("Failed to fetch issues: " ++ e)), [team_id])
            | .ok issues =>
                match issues.find? (fun i => decide (i.issue_number = some issue_number)) with
                | some issue => (.ok issue.id, [team_id])
                | none =>
                    (.error (.notFound
                      ("Issue " ++ String.mk (team_key.map upperCh) ++ "-"
                        ++ toString issue_number ++ " not found")), [team_id])

/-- The command-line arguments of `ikanban create` that feed the request
body (`--priority` is a free-form string option; argparse imposes no
`choices` restriction on it, and an MCP caller may pass an integer). -/
structure CreateArgs where
  team : String
  title : String
  project : Option String
  status : Option String
  description : Option String
  priority : Option PyVal
  assignee : Option String
  due_date : Option String
deriving DecidableEq

/-- The JSON body `data` that `cmd_create` posts to `/tasks`. -/
structure CreateData where
  project_id : String
  title : String
  team_id : String
  status : String
  description : Option String
  priority : Option Int
  assignee_id : Option String
  due_date : Option String
deriving DecidableEq

/-- Either `cmd_create` exits with an error before any request is built,
or it builds the request body that is posted. -/
inductive CreateOutcome where
  | err (msg : String)
  | request (d : CreateData)
deriving DecidableEq

/-- The request-building part of `cmd_create` in `mcp/ikanban.py`:
everything up to (but not including) `api_request("/tasks", ...)`.
Optional string fields are included only when truthy; the priority field
is included whenever `parse_priority` returns non-`None`. -/
def cmd_create_build (args : CreateArgs) : CreateOutcome :=
  let team_id := resolve_team_id (some args.team)
  match team_id with
  | none => .err "Team is required. Use: IKA, SCH, or team UUID"
  | some t =>
      if t = "" then .err "Team is required. Use: IKA, SCH, or team UUID"
      else
        match resolve_project_id args.project (some t) with
        | none => .err "No default project for team. Specify --project"
        | some p =>
            if p = "" then .err "No default project for team. Specify --project"
            else
              .request
                { project_id := p
                  title := args.title
                  team_id := t
                  status := match args.status with
                            | some st => if st = "" then "todo" else st
                            | none => "todo"
                  description := match args.description with
                                 | some d => if d = "" then none else some d
                                 | none => none
                  priority := match args.priority with
                              | some v => parse_priority (some v)
                              | none => none
                  assignee_id := match args.assignee with
                                 | some a => if a = "" then none else some a
                                 | none => none
                  due_date := match args.due_date with
                              | some d => if d = "" then none else some d
                              | none => none }

end Mcp

/-! ### Supporting lemmas -/

theorem count_takeWhile_eq_zero {p : Char → Bool} {a : Char} (ha : p a = false)
    (l : List Char) : (l.takeWhile p).count a = 0 := by
  refine List.count_eq_zero.mpr (fun hmem => ?_)
  have h2 := List.mem_takeWhile_imp hmem
  rw [ha] at h2
  exact Bool.noConfusion h2

theorem count_dropWhile_eq {p : Char → Bool} {a : Char} (ha : p a = false)
    (l : List Char) : (l.dropWhile p).count a = l.count a := by
  conv_rhs => rw [← List.takeWhile_append_dropWhile p l]
  rw [List.count_append, count_takeWhile_eq_zero ha, Nat.zero_add]

theorem count_pyStripList {a : Char} (ha : isPySpace a = false) (l : List Char) :
    (pyStripList l).count a = l.count a := by
  unfold pyStripList
  rw [List.count_reverse, count_dropWhile_eq ha, List.count_reverse, count_dropWhile_eq ha]

/-- A digit-only character list contains no hyphen. -/
theorem count_dash_of_all_digits {d : List Char} (hall : d.all isAsciiDigit = true) :
    d.count '-' = 0 := by
  refine List.count_eq_zero.mpr (fun hmem => ?_)
  rw [List.all_eq_true] at hall
  exact absurd (hall _ hmem) (by decide)

/-- A string accepted by the issue-key regex contains at most one hyphen. -/
theorem count_dash_of_issueKeyMatch {l letters digits : List Char}
    (h : Mcp.issueKeyMatch l = some (letters, digits)) : l.count '-' ≤ 1 := by
  have hcount : l.count '-' = (l.dropWhile isAsciiLetter).count '-' := by
    conv_lhs => rw [← List.takeWhile_append_dropWhile isAsciiLetter l]
    rw [List.count_append, count_takeWhile_eq_zero (by decide), Nat.zero_add]
  rw [hcount]
  unfold Mcp.issueKeyMatch at h
  simp only at h
  split at h
  · exact absurd h (by simp)
  · generalize hR : l.dropWhile isAsciiLetter = R at h ⊢
    rcases R with _ | ⟨c, t⟩
    · simp at h
    · by_cases hc : c = '-'
      · subst hc
        rw [if_pos (show (('-' :: t).head? = some '-') from rfl)] at h
        simp only [List.tail_cons] at h
        split at h
        · rename_i hg
          rw [List.count_cons_self, count_dash_of_all_digits hg.2]
        · exact absurd h (by simp)
      · rw [if_neg (show ¬ ((c :: t).head? = some '-') by simp [hc])] at h
        split at h
        · rename_i hg
          rw [count_dash_of_all_digits hg.2]
          exact Nat.zero_le 1
        · exact absurd h (by simp)

theorem pyLower_data (s : String) : (pyLower s).data = s.data.map lowerCh := rfl

theorem pyLower_length (s : String) : (pyLower s).data.length = s.data.length := by
  rw [pyLower_data, List.length_map]

/-- On an input accepted by the issue-key regex, `resolve_task_id` skips the
empty-string and UUID guards and proceeds to team resolution and, when the
team is known, to the single fetch and the in-order scan. -/
theorem resolve_task_id_of_match (fetch : String → Except String (List Mcp.Issue))
    (s : String) {letters digits : List Char}
    (hm : Mcp.issueKeyMatch (pyStripList s.data) = some (letters, digits)) :
    Mcp.resolve_task_id fetch s =
      match dget Mcp.KNOWN_TEAMS (String.mk (letters.map lowerCh)) with
      | none =>
          (.error (.unknownTeam
            ("Unknown team: " ++ String.mk ((letters.map lowerCh).map upperCh)
              ++ ". Use IKA or SCH.")), [])
      | some team_id =>
          match fetch team_id with
          | .error e => (.error (.fetchFailed ("Failed to fetch issues: " ++ e)), [team_id])
          | .ok issues =>
              match issues.find?
                  (fun i => decide (i.issue_number = some ((digitsToNat digits : Nat) : Int))) with
              | some issue => (.ok issue.id, [team_id])
              | none =>
                  (.error (.notFound
                    ("Issue " ++ String.mk ((letters.map lowerCh).map upperCh) ++ "-"
                      ++ toString ((digitsToNat digits : Nat) : Int) ++ " not found")), [team_id]) := by
  have hne : ¬ s = "" := by
    intro hs
    subst hs
    have h0 : Mcp.issueKeyMatch (pyStripList ("" : String).data) = none := rfl
    rw [h0] at hm
    exact Option.noConfusion hm
  have hdash : countDash s ≤ 1 := by
    have h1 := count_dash_of_issueKeyMatch hm
    rwa [count_pyStripList (by decide)] at h1
  unfold Mcp.resolve_task_id
  rw [if_neg hne,
    if_neg (show ¬ (pyLen s = 36 ∧ countDash s = 4) by
      rintro ⟨-, h4⟩
      rw [h4] at hdash
      exact absurd hdash (by decide)),
    hm]

/-! ### Claim theorems -/

/-- C1: for every input accepted by the issue-key regex whose lowercased
letter group is a key of the team-alias table, `resolve_task_id` fetches the
resolved team's issue list exactly once (the trace is `[team_id]`), scans it
in order, and returns the id of the first issue whose `issue_number` equals
the parsed integer; if no issue matches, it fails with a not-found error. -/
theorem resolve_task_id_scans_team_issues
    (fetch : String → Except String (List Mcp.Issue)) (s : String)
    {letters digits : List Char} (team_id : String) (issues : List Mcp.Issue)
    (hm : Mcp.issueKeyMatch (pyStripList s.data) = some (letters, digits))
    (ht : dget Mcp.KNOWN_TEAMS (String.mk (letters.map lowerCh)) = some team_id)
    (hf : fetch team_id = .ok issues) :
    Mcp.resolve_task_id fetch s =
      (match issues.find?
          (fun i => decide (i.issue_number = some ((digitsToNat digits : Nat) : Int))) with
       | some issue => .ok issue.id
       | none =>
          .error (.notFound
            ("Issue " ++ String.mk ((letters.map lowerCh).map upperCh) ++ "-"
              ++ toString ((digitsToNat digits : Nat) : Int) ++ " not found")),
       [team_id]) := by
  rw [resolve_task_id_of_match fetch s hm, ht]
  simp only [hf]
  cases issues.find?
      (fun i => decide (i.issue_number = some ((digitsToNat digits : Nat) : Int))) <;> rfl

/-- Witness for C1, on the spec's own example: team `IKA` resolves to UUID
`U`, the mocked issue list is `[{id: X, issue_number: 27}, {id: Y,
issue_number: 5}]`, and both `"IKA-27"` and `"ika27"` resolve to `X` with
exactly one fetch of `U`, while `"IKA-999"` fails with a not-found error. -/
theorem resolve_task_id_scans_team_issues_witness :
    Mcp.resolve_task_id
        (fun _ => .ok [⟨"X", some 27⟩, ⟨"Y", some 5⟩]) "IKA-27"
      = (.ok "X", ["a263e43f-43d3-4af7-a947-5f70e6670921"]) ∧
    Mcp.resolve_task_id
        (fun _ => .ok [⟨"X", some 27⟩, ⟨"Y", some 5⟩]) "ika27"
      = (.ok "X", ["a263e43f-43d3-4af7-a947-5f70e6670921"]) ∧
    Mcp.resolve_task_id
        (fun _ => .ok [⟨"X", some 27⟩, ⟨"Y", some 5⟩]) "IKA-999"
      = (.error (.notFound "Issue IKA-999 not found"),
         ["a263e43f-43d3-4af7-a947-5f70e6670921"]) := by
  refine ⟨?_, ?_, ?_⟩
  · have h := @resolve_task_id_scans_team_issues
      (fun _ => .ok [⟨"X", some 27⟩, ⟨"Y", some 5⟩]) "IKA-27"
      ['I', 'K', 'A'] ['2', '7']
      "a263e43f-43d3-4af7-a947-5f70e6670921" [⟨"X", some 27⟩, ⟨"Y", some 5⟩]
      (by decide) (by decide) rfl
    rw [h]
    decide
  · have h := @resolve_task_id_scans_team_issues
      (fun _ => .ok [⟨"X", some 27⟩, ⟨"Y", some 5⟩]) "ika27"
      ['i', 'k', 'a'] ['2', '7']
      "a263e43f-43d3-4af7-a947-5f70e6670921" [⟨"X", some 27⟩, ⟨"Y", some 5⟩]
      (by decide) (by decide) rfl
    rw [h]
    decide
  · have h := @resolve_task_id_scans_team_issues
      (fun _ => .ok [⟨"X", some 27⟩, ⟨"Y", some 5⟩]) "IKA-999"
      ['I', 'K', 'A'] ['9', '9', '9']
      "a263e43f-43d3-4af7-a947-5f70e6670921" [⟨"X", some 27⟩, ⟨"Y", some 5⟩]
      (by decide) (by decide) rfl
    rw [h]
    decide

/-- C3: for every input accepted by the issue-key regex whose lowercased
letter group is not a key of the team-alias table, `resolve_task_id` fails
with an unknown-team error and the fetch trace is empty: no network call is
made. -/
theorem unknown_team_no_fetch
    (fetch : String → Except String (List Mcp.Issue)) (s : String)
    {letters digits : List Char}
    (hm : Mcp.issueKeyMatch (pyStripList s.data) = some (letters, digits))
    (ht : dget Mcp.KNOWN_TEAMS (String.mk (letters.map lowerCh)) = none) :
    Mcp.resolve_task_id fetch s =
      (.error (.unknownTeam
        ("Unknown team: " ++ String.mk ((letters.map lowerCh).map upperCh)
          ++ ". Use IKA or SCH.")), []) := by
  rw [resolve_task_id_of_match fetch s hm, ht]

/-- Witness for C3: `"XYZ-5"` with `XYZ` absent from the team-alias table
fails with an unknown-team error and no fetch is recorded. -/
theorem unknown_team_no_fetch_witness :
    Mcp.resolve_task_id (fun _ => .ok []) "XYZ-5"
      = (.error (.unknownTeam "Unknown team: XYZ. Use IKA or SCH."), []) := by
  have h := @unknown_team_no_fetch (fun _ => .ok []) "XYZ-5"
    ['X', 'Y', 'Z'] ['5'] (by decide) (by decide)
  rw [h]
  rfl

/-- C2: every string of length 36 with exactly 4 hyphens is passed through
unchanged by `resolve_task_id` with an empty fetch trace (no network call),
and by `resolve_team_id` (no alias-table key has length 36, so the lookup
cannot rewrite it). -/
theorem uuid_passthrough_no_lookup
    (fetch : String → Except String (List Mcp.Issue)) (s : String)
    (h36 : pyLen s = 36) (h4 : countDash s = 4) :
    Mcp.resolve_task_id fetch s = (.ok s, []) ∧
    Mcp.resolve_team_id (some s) = some s := by
  have hne : ¬ s = "" := by
    intro hs
    subst hs
    exact absurd h36 (by decide)
  have hlow : (pyLower s).data.length = 36 := by
    rw [pyLower_length]
    exact h36
  have k1 : ¬ pyLower s = "ikanban" := fun he => by
    rw [he] at hlow; exact absurd hlow (by decide)
  have k2 : ¬ pyLower s = "schild" := fun he => by
    rw [he] at hlow; exact absurd hlow (by decide)
  have k3 : ¬ pyLower s = "ika" := fun he => by
    rw [he] at hlow; exact absurd hlow (by decide)
  have k4 : ¬ pyLower s = "sch" := fun he => by
    rw [he] at hlow; exact absurd hlow (by decide)
  constructor
  · unfold Mcp.resolve_task_id
    rw [if_neg hne, if_pos ⟨h36, h4⟩]
  · simp [Mcp.resolve_team_id, hne, Mcp.KNOWN_TEAMS, dget, k1, k2, k3, k4]

/-- Witness for C2, at a concrete UUID-shaped string. -/
theorem uuid_passthrough_no_lookup_witness :
    Mcp.resolve_task_id (fun _ => .ok []) "ab802fb3-698e-4235-942c-b3ec7df6fa3c"
      = (.ok "ab802fb3-698e-4235-942c-b3ec7df6fa3c", []) ∧
    Mcp.resolve_team_id (some "ab802fb3-698e-4235-942c-b3ec7df6fa3c")
      = some "ab802fb3-698e-4235-942c-b3ec7df6fa3c" :=
  uuid_passthrough_no_lookup (fun _ => .ok [])
    "ab802fb3-698e-4235-942c-b3ec7df6fa3c" (by decide) (by decide)

/-- C7 counterexample: for input `"ika27"` and an issue list with no issue
number 27, the not-found message is `"Issue IKA-27 not found"`: the original
composite key `"ika27"` as typed does not occur in the message, only the
normalized form `"IKA-27"` does. -/
theorem notfound_message_counterexample :
    Mcp.resolve_task_id (fun _ => .ok [⟨"Y", some 5⟩]) "ika27"
      = (.error (.notFound "Issue IKA-27 not found"),
         ["a263e43f-43d3-4af7-a947-5f70e6670921"]) ∧
    containsSubstr "Issue IKA-27 not found".data "ika27".data = false ∧
    containsSubstr "Issue IKA-27 not found".data "IKA-27".data = true := by
  refine ⟨by decide, by decide, by decide⟩

/-- C7 (amended): when the fetched issue list has no issue with the parsed
number, the not-found error names the normalized composite key — the
uppercased letter group, a hyphen, and the canonical decimal of the parsed
number — rather than the key as the user typed it. -/
theorem notfound_message_normalized
    (fetch : String → Except String (List Mcp.Issue)) (s : String)
    {letters digits : List Char} (team_id : String) (issues : List Mcp.Issue)
    (hm : Mcp.issueKeyMatch (pyStripList s.data) = some (letters, digits))
    (ht : dget Mcp.KNOWN_TEAMS (String.mk (letters.map lowerCh)) = some team_id)
    (hf : fetch team_id = .ok issues)
    (hn : issues.find?
      (fun i => decide (i.issue_number = some ((digitsToNat digits : Nat) : Int))) = none) :
    Mcp.resolve_task_id fetch s =
      (.error (.notFound
        ("Issue " ++ String.mk ((letters.map lowerCh).map upperCh) ++ "-"
          ++ toString ((digitsToNat digits : Nat) : Int) ++ " not found")), [team_id]) := by
  rw [resolve_task_id_of_match fetch s hm, ht]
  simp only [hf, hn]

/-- Witness for the amended C7, at input `"ika27"`. -/
theorem notfound_message_normalized_witness :
    Mcp.resolve_task_id (fun _ => .ok [⟨"Y", some 5⟩]) "ika27"
      = (.error (.notFound "Issue IKA-27 not found"),
         ["a263e43f-43d3-4af7-a947-5f70e6670921"]) := by
  have h := @notfound_message_normalized (fun _ => .ok [⟨"Y", some 5⟩]) "ika27"
    ['i', 'k', 'a'] ['2', '7']
    "a263e43f-43d3-4af7-a947-5f70e6670921" [⟨"Y", some 5⟩]
    (by decide) (by decide) rfl (by decide)
  rw [h]
  decide

/-- C9 counterexample: `resolve_team_id` does not strip surrounding
whitespace: `" IKA "` is returned unchanged and differs from the UUID that
`"ika"` resolves to. -/
theorem team_whitespace_counterexample :
    Mcp.resolve_team_id (some " IKA ") = some " IKA " ∧
    Mcp.resolve_team_id (some "ika") = some "a263e43f-43d3-4af7-a947-5f70e6670921" ∧
    ¬ (" IKA " : String) = "a263e43f-43d3-4af7-a947-5f70e6670921" := by
  refine ⟨by decide, by decide, by decide⟩

/-- C9 (amended): `resolve_team_id` resolves known team short codes to their
fixed UUIDs case-insensitively, but it does not strip whitespace: any
non-empty input whose lowercasing is not exactly a table key — in particular
a whitespace-padded code — is passed through unchanged. -/
theorem resolve_team_case_insensitive :
    (∀ s v, dget Mcp.KNOWN_TEAMS (pyLower s) = some v →
      Mcp.resolve_team_id (some s) = some v) ∧
    (∀ s, ¬ s = "" → dget Mcp.KNOWN_TEAMS (pyLower s) = none →
      Mcp.resolve_team_id (some s) = some s) := by
  constructor
  · intro s v h
    have hne : ¬ s = "" := by
      intro hs
      subst hs
      have h0 : dget Mcp.KNOWN_TEAMS (pyLower "") = none := by decide
      rw [h0] at h
      exact Option.noConfusion h
    simp [Mcp.resolve_team_id, hne, h]
  · intro s hne h
    simp [Mcp.resolve_team_id, hne, h]

/-- Witness for the amended C9: `"iKa"` resolves to the IKA UUID, while
`" IKA "` is passed through unchanged. -/
theorem resolve_team_case_insensitive_witness :
    Mcp.resolve_team_id (some "iKa") = some "a263e43f-43d3-4af7-a947-5f70e6670921" ∧
    Mcp.resolve_team_id (some " IKA ") = some " IKA " :=
  ⟨resolve_team_case_insensitive.1 "iKa"
      "a263e43f-43d3-4af7-a947-5f70e6670921" (by decide),
   resolve_team_case_insensitive.2 " IKA " (by decide) (by decide)⟩

/-- C4 counterexample: `"backend"` for the IKA team maps in the project
table to the dynamic placeholder `"use-dynamic-lookup"`, yet
`resolve_project_id` returns the input string `"backend"` itself — not
null/unresolved. -/
theorem dynamic_placeholder_counterexample :
    dget Mcp.IKA_PROJECTS (pyLower "backend") = some "use-dynamic-lookup" ∧
    py_startswith "use-dynamic-lookup" "use-" = true ∧
    Mcp.resolve_project_id (some "backend")
        (some "a263e43f-43d3-4af7-a947-5f70e6670921") = some "backend" := by
  refine ⟨by decide, by decide, by decide⟩

/-- C4 (amended): a project reference whose lowercasing maps to a dynamic
placeholder entry (a value starting `"use-"` in ikanban.py/server.py, the
literal `"use-vk_list_projects"` in cli.py) is never resolved to the
placeholder: `resolve_project_id` falls through and returns the input
reference unchanged, leaving the live project-list lookup to the caller. -/
theorem dynamic_placeholder_passthrough :
    (∀ ref pid, ¬ ref = "" →
      dget Mcp.IKA_PROJECTS (pyLower ref) = some pid →
      py_startswith pid "use-" = true →
      Mcp.resolve_project_id (some ref)
        (some "a263e43f-43d3-4af7-a947-5f70e6670921") = some ref) ∧
    (∀ ref, ¬ ref = "" →
      dget Cli.IKA_PROJECTS (pyLower ref) = some "use-vk_list_projects" →
      Cli.resolve_project_id (some ref)
        (some "a263e43f-43d3-4af7-a947-5f70e6670921") = some ref) := by
  constructor
  · intro ref pid hne hd hstart
    simp [Mcp.resolve_project_id, hne, hd, hstart]
  · intro ref hne hd
    simp [Cli.resolve_project_id, hne, hd]

/-- Witness for the amended C4, at `"backend"` for the IKA team. -/
theorem dynamic_placeholder_passthrough_witness :
    Mcp.resolve_project_id (some "backend")
        (some "a263e43f-43d3-4af7-a947-5f70e6670921") = some "backend" ∧
    Cli.resolve_project_id (some "Integration")
        (some "a263e43f-43d3-4af7-a947-5f70e6670921") = some "Integration" :=
  ⟨dynamic_placeholder_passthrough.1 "backend" "use-dynamic-lookup"
      (by decide) (by decide) (by decide),
   dynamic_placeholder_passthrough.2 "Integration" (by decide) (by decide)⟩

/-- C5 counterexample: the priority string `"7"` and the integer `9` are
outside the closed vocabulary, yet `cmd_create` builds request bodies
carrying priorities 7 and 9: out-of-range priorities are not rejected
before the request is constructed. -/
theorem out_of_range_priority_counterexample :
    Mcp.cmd_create_build
        { team := "ika", title := "t", project := none, status := none,
          description := none, priority := some (.vstr "7"),
          assignee := none, due_date := none }
      = .request
        { project_id := "ff89ece5-eb49-4d8b-a349-4fc227773cbc", title := "t",
          team_id := "a263e43f-43d3-4af7-a947-5f70e6670921", status := "todo",
          description := none, priority := some 7,
          assignee_id := none, due_date := none } ∧
    Mcp.cmd_create_build
        { team := "ika", title := "t", project := none, status := none,
          description := none, priority := some (.vint 9),
          assignee := none, due_date := none }
      = .request
        { project_id := "ff89ece5-eb49-4d8b-a349-4fc227773cbc", title := "t",
          team_id := "a263e43f-43d3-4af7-a947-5f70e6670921", status := "todo",
          description := none, priority := some 9,
          assignee_id := none, due_date := none } ∧
    ¬ ((0:Int) ≤ 7 ∧ (7:Int) ≤ 4) ∧ ¬ ((0:Int) ≤ 9 ∧ (9:Int) ≤ 4) := by
  refine ⟨by decide, by decide, by decide, by decide⟩

/-- C5 (amended): the only priority values dropped before the request is
built are those `parse_priority` cannot parse (non-name, non-numeric
strings, which yield `None` and omit the field); every request body built by
`cmd_create` carries exactly `parse_priority` of the caller's value, with no
range check against `[0,4]`. -/
theorem request_priority_unvalidated (args : Mcp.CreateArgs) (d : Mcp.CreateData)
    (h : Mcp.cmd_create_build args = .request d) :
    d.priority = Mcp.parse_priority args.priority := by
  unfold Mcp.cmd_create_build at h
  simp only at h
  split at h
  · exact absurd h (by simp)
  · split at h
    · exact absurd h (by simp)
    · split at h
      · exact absurd h (by simp)
      · split at h
        · exact absurd h (by simp)
        · injection h with h2
          subst h2
          cases args.priority <;> rfl

/-- Witness for the amended C5: the request built for integer priority 9
carries `parse_priority 9 = some 9`. -/
theorem request_priority_unvalidated_witness :
    ({ project_id := "ff89ece5-eb49-4d8b-a349-4fc227773cbc", title := "t",
       team_id := "a263e43f-43d3-4af7-a947-5f70e6670921", status := "todo",
       description := none, priority := some 9,
       assignee_id := none, due_date := none } : Mcp.CreateData).priority
      = Mcp.parse_priority (some (.vint 9)) :=
  request_priority_unvalidated
    { team := "ika", title := "t", project := none, status := none,
      description := none, priority := some (.vint 9),
      assignee := none, due_date := none }
    { project_id := "ff89ece5-eb49-4d8b-a349-4fc227773cbc", title := "t",
      team_id := "a263e43f-43d3-4af7-a947-5f70e6670921", status := "todo",
      description := none, priority := some 9,
      assignee_id := none, due_date := none }
    (by decide)

/-- C6: `parse_priority` maps the five canonical priority names to their
codes case-insensitively; any other string goes through integer parsing,
yielding the parsed integer on success and `None` on failure; an integer
input is returned as-is and a `None` input yields `None`. -/
theorem parse_priority_spec :
    (∀ s, pyLower s = "none" → Mcp.parse_priority (some (.vstr s)) = some 0) ∧
    (∀ s, pyLower s = "urgent" → Mcp.parse_priority (some (.vstr s)) = some 1) ∧
    (∀ s, pyLower s = "high" → Mcp.parse_priority (some (.vstr s)) = some 2) ∧
    (∀ s, pyLower s = "medium" → Mcp.parse_priority (some (.vstr s)) = some 3) ∧
    (∀ s, pyLower s = "low" → Mcp.parse_priority (some (.vstr s)) = some 4) ∧
    (∀ s, dget Mcp.PRIORITIES (pyLower s) = none →
      Mcp.parse_priority (some (.vstr s)) = pyIntOfString s) ∧
    Mcp.parse_priority (some (.vstr "3")) = some 3 ∧
    Mcp.parse_priority (some (.vstr "bogus")) = none ∧
    (∀ n : Int, Mcp.parse_priority (some (.vint n)) = some n) ∧
    Mcp.parse_priority none = none := by
  refine ⟨?_, ?_, ?_, ?_, ?_, ?_, by decide, by decide, fun n => rfl, rfl⟩
  all_goals intro s h
  case refine_6 =>
    simp only [Mcp.parse_priority]
    rw [h]
  all_goals simp [Mcp.parse_priority, Mcp.PRIORITIES, dget, h]

/-- Witness for C6: the name cases applied at concrete case-variant strings
and the integer-parse case applied at a non-keyword numeric string. -/
theorem parse_priority_spec_witness :
    Mcp.parse_priority (some (.vstr "NoNe")) = some 0 ∧
    Mcp.parse_priority (some (.vstr "URGENT")) = some 1 ∧
    Mcp.parse_priority (some (.vstr "High")) = some 2 ∧
    Mcp.parse_priority (some (.vstr "mEdIuM")) = some 3 ∧
    Mcp.parse_priority (some (.vstr "Low")) = some 4 ∧
    Mcp.parse_priority (some (.vstr "42")) = pyIntOfString "42" :=
  ⟨parse_priority_spec.1 "NoNe" (by decide),
   parse_priority_spec.2.1 "URGENT" (by decide),
   parse_priority_spec.2.2.1 "High" (by decide),
   parse_priority_spec.2.2.2.1 "mEdIuM" (by decide),
   parse_priority_spec.2.2.2.2.1 "Low" (by decide),
   parse_priority_spec.2.2.2.2.2.1 "42" (by decide)⟩

/-- C8: with an empty project reference, `resolve_project_id` returns the
team's entry in the default-project table — the IKA team's default for the
IKA UUID, the SCH team's default for the SCH UUID, `None` for any team id
with no entry, and `None` when no team id is given. -/
theorem default_project_resolution :
    (∀ U, ¬ U = "" →
      Mcp.resolve_project_id none (some U) = dget Mcp.TEAM_DEFAULT_PROJECTS U) ∧
    dget Mcp.TEAM_DEFAULT_PROJECTS "a263e43f-43d3-4af7-a947-5f70e6670921"
      = some "ff89ece5-eb49-4d8b-a349-4fc227773cbc" ∧
    dget Mcp.TEAM_DEFAULT_PROJECTS "a2f22deb-901e-436b-9755-644cb26753b7"
      = some "ec364e49-b620-48e1-9dd1-8744eaedb5e2" ∧
    (∀ U, ¬ U = "a263e43f-43d3-4af7-a947-5f70e6670921" →
      ¬ U = "a2f22deb-901e-436b-9755-644cb26753b7" →
      dget Mcp.TEAM_DEFAULT_PROJECTS U = none) ∧
    Mcp.resolve_project_id none none = none := by
  refine ⟨?_, by decide, by decide, ?_, rfl⟩
  · intro U h
    simp [Mcp.resolve_project_id, h]
  · intro U h1 h2
    simp [Mcp.TEAM_DEFAULT_PROJECTS, dget, h1, h2]

/-- Witness for C8, at the two configured teams and an unconfigured one. -/
theorem default_project_resolution_witness :
    Mcp.resolve_project_id none (some "a263e43f-43d3-4af7-a947-5f70e6670921")
      = dget Mcp.TEAM_DEFAULT_PROJECTS "a263e43f-43d3-4af7-a947-5f70e6670921" ∧
    dget Mcp.TEAM_DEFAULT_PROJECTS "deadbeef-0000-0000-0000-000000000000" = none :=
  ⟨default_project_resolution.1 "a263e43f-43d3-4af7-a947-5f70e6670921" (by decide),
   default_project_resolution.2.2.2.1 "deadbeef-0000-0000-0000-000000000000"
     (by decide) (by decide)⟩

/-- `server.py`'s extra pre-lowercase membership test never changes the
result: all table keys are already lowercase. -/
theorem team_cli_eq_server (r : Option String) :
    Cli.resolve_team_id r = Server.resolve_team_id r := by
  rcases r with _ | s
  · rfl
  · by_cases hs : s = ""
    · simp [Cli.resolve_team_id, Server.resolve_team_id, hs]
    · by_cases h1 : s = "ikanban"
      · subst h1; decide
      · by_cases h2 : s = "schild"
        · subst h2; decide
        · by_cases h3 : s = "ika"
          · subst h3; decide
          · by_cases h4 : s = "sch"
            · subst h4; decide
            · have hserver : dget Server.KNOWN_TEAMS s = none := by
                simp [Server.KNOWN_TEAMS, dget, h1, h2, h3, h4]
              simp only [Cli.resolve_team_id, Server.resolve_team_id,
                if_neg hs, hserver]
              cases hd : dget Server.KNOWN_TEAMS (pyLower s) with
              | none =>
                  simp [hd, show dget Cli.KNOWN_TEAMS (pyLower s) = none from hd]
              | some v =>
                  simp [hd, show dget Cli.KNOWN_TEAMS (pyLower s) = some v from hd]

/-- `cli.py` tests the placeholder by equality with
`"use-vk_list_projects"` (its own table's placeholder), `ikanban.py` by
`startswith("use-")` on `"use-dynamic-lookup"`: both fall through to the
input reference on exactly the same keys. -/
theorem project_cli_eq_mcp (p t : Option String) :
    Cli.resolve_project_id p t = Mcp.resolve_project_id p t := by
  rcases p with _ | s
  · rfl
  · by_cases hs : s = ""
    · rcases t with _ | u
      · simp [Cli.resolve_project_id, Mcp.resolve_project_id, hs]
      · simp [Cli.resolve_project_id, Mcp.resolve_project_id, hs,
          Cli.TEAM_DEFAULT_PROJECTS, Mcp.TEAM_DEFAULT_PROJECTS]
    · by_cases hik : t = some "a263e43f-43d3-4af7-a947-5f70e6670921"
      · subst hik
        by_cases hf : pyLower s = "frontend"
        · simp [Cli.resolve_project_id, Mcp.resolve_project_id, hs, hf,
            Cli.IKA_PROJECTS, Mcp.IKA_PROJECTS, dget, py_startswith]
        · by_cases hb : pyLower s = "backend"
          · simp [Cli.resolve_project_id, Mcp.resolve_project_id, hs, hb,
              Cli.IKA_PROJECTS, Mcp.IKA_PROJECTS, dget, py_startswith]
          · by_cases hi : pyLower s = "integration"
            · simp [Cli.resolve_project_id, Mcp.resolve_project_id, hs, hi,
                Cli.IKA_PROJECTS, Mcp.IKA_PROJECTS, dget, py_startswith]
            · simp [Cli.resolve_project_id, Mcp.resolve_project_id, hs,
                Cli.IKA_PROJECTS, Mcp.IKA_PROJECTS, dget, hf, hb, hi]
      · by_cases hsch : t = some "a2f22deb-901e-436b-9755-644cb26753b7"
        · subst hsch
          simp only [Cli.resolve_project_id, Mcp.resolve_project_id, if_neg hs]
          cases hd : dget Mcp.SCH_PROJECTS (pyLower s) with
          | none =>
              simp [hd, show dget Cli.SCH_PROJECTS (pyLower s) = none from hd]
          | some v =>
              simp [hd, show dget Cli.SCH_PROJECTS (pyLower s) = some v from hd]
        · simp [Cli.resolve_project_id, Mcp.resolve_project_id, hs, hik, hsch]

/-- C10: the per-file variants of the resolution library are extensionally
equal: on every string/None input (and integer input for priorities),
`resolve_team_id`, `resolve_project_id` and `parse_priority` of cli.py,
server.py and ikanban.py — each paired with its own module-level tables —
return identical results, despite their textual differences. -/
theorem variants_extensionally_equal :
    (∀ r, Cli.resolve_team_id r = Server.resolve_team_id r ∧
          Cli.resolve_team_id r = Mcp.resolve_team_id r) ∧
    (∀ p t, Cli.resolve_project_id p t = Server.resolve_project_id p t ∧
            Cli.resolve_project_id p t = Mcp.resolve_project_id p t) ∧
    (∀ v, Cli.parse_priority v = Server.parse_priority v ∧
          Cli.parse_priority v = Mcp.parse_priority v) :=
  ⟨fun r => ⟨team_cli_eq_server r, rfl⟩,
   fun p t => ⟨project_cli_eq_mcp p t, project_cli_eq_mcp p t⟩,
   fun _ => ⟨rfl, rfl⟩⟩

end IKanban
